import Mathlib

/-!
Shallow embedding of the turn-processing state machine of `spine.py`
(class `Spine`), together with its Pydantic data model from `schema.py`.

Python floats are modelled as rationals (`ℚ`), Python exceptions as
`Except String`, and the random source (`random.uniform(0.2, 0.7)`,
drawn four times for the tension wave) as an explicit parameter
`r : Fin 4 → ℚ` giving the four raw draws.  Persistence (`save_state`)
is modelled by the state component of a successful result: a failed
turn raises before any mutation, so the persisted document is the
unchanged input state (`runTurn`).
-/

namespace Spine

/-- `schema.Scene`. -/
structure Scene where
  id : String
  tone : String
  location : String
  beat_idx : Int
  spi : Int
deriving DecidableEq

/-- `schema.PC`. -/
structure PC where
  name : String
  stance : String
  last_move : String
deriving DecidableEq

/-- `schema.NPC` (also used for the `PCONPC` payload of the response). -/
structure NPC where
  id : String
  name : String
  traits : List String
  quirks : List String
  rv : ℚ
  pv : ℚ
  voice_style : String
deriving DecidableEq

/-- `schema.PunSys`. -/
structure PunSys where
  tier : Int
  wave : List ℚ
  gate : String
deriving DecidableEq

/-- `schema.Flashpoint`. -/
structure Flashpoint where
  armed : Bool
  type : String
  threshold : ℚ
  cooldown_left : Int
deriving DecidableEq

/-- `schema.Constraints`. -/
structure Constraints where
  max_tokens : Int
  no_meta : Bool
  jp_dialogue_only : Bool
  furigana_in_breakdown_only : Bool
deriving DecidableEq

/-- `schema.Asks`. -/
structure Asks where
  render_narration : Bool
  suggest_pc_moves : Int
  return_observed_markers : List String
deriving DecidableEq

/-- `schema.EngineTurn`: the response document of `process_turn`. -/
structure EngineTurn where
  version : String
  seed : Int
  lang_mode : String
  scene : Scene
  pc : PC
  npcs : List NPC
  punsys : PunSys
  flashpoint : Flashpoint
  constraints : Constraints
  asks : Asks
deriving DecidableEq

/-- `schema.DialogueLine`. -/
structure DialogueLine where
  speaker : String
  line : String
deriving DecidableEq

/-- `schema.Marker`. -/
structure Marker where
  speaker : String
  trait : String
  quirk : String
  tone : String
deriving DecidableEq

/-- `schema.MoveSuggestion`. -/
structure MoveSuggestion where
  id : String
  label : String
deriving DecidableEq

/-- `schema.Translation`. -/
structure Translation where
  jp : String
  kana : String
  en : String
deriving DecidableEq

/-- `schema.Breakdown`. -/
structure Breakdown where
  translations : List Translation
  vocab : List String
deriving DecidableEq

/-- `schema.FlashpointHint`. -/
structure FlashpointHint where
  prime_level : ℚ
  ready_to_trigger : Bool
deriving DecidableEq

/-- `schema.PunSysFeedback`. -/
structure PunSysFeedback where
  pressure_hint : ℚ
  tier_suggestion : Int
deriving DecidableEq

/-- `schema.NarrativeTurn`: the inbound document of `process_turn`. -/
structure NarrativeTurn where
  scene_id : String
  beat_idx : Int
  narration_en : String
  dialogue_jp : List DialogueLine
  markers : List Marker
  pc_move_suggestions : List MoveSuggestion
  punsys_feedback : PunSysFeedback
  flashpoint_hint : FlashpointHint
  post_scene_breakdown : Breakdown
deriving DecidableEq

/-- The persisted session-state document (`Spine.default_state` gives its
shape: version, scene, pc, npcs, punsys, flashpoint). -/
structure SpineState where
  version : String
  scene : Scene
  pc : PC
  npcs : List NPC
  punsys : PunSys
  flashpoint : Flashpoint
deriving DecidableEq

/-- `Spine.contains_japanese`: a character in the hiragana/katakana block
U+3040..U+30FF or the CJK ideograph block U+4E00..U+9FAF. -/
def contains_japanese (c : Char) : Bool :=
  decide ('぀' ≤ c ∧ c ≤ 'ヿ') || decide ('一' ≤ c ∧ c ≤ '龯')

/-- `Spine.contains_english`: a Latin letter A..Z or a..z. -/
def contains_english (c : Char) : Bool :=
  decide ('A' ≤ c ∧ c ≤ 'Z') || decide ('a' ≤ c ∧ c ≤ 'z')

/-- Python's `round` ties-to-even rounding of a rational to an integer
(`round(x)` on the exact value). -/
def roundHalfEven (q : ℚ) : Int :=
  if q - ⌊q⌋ < 1/2 then ⌊q⌋
  else if 1/2 < q - ⌊q⌋ then ⌊q⌋ + 1
  else if ⌊q⌋ % 2 = 0 then ⌊q⌋ else ⌊q⌋ + 1

/-- `round(x, 2)`: rounding to 2 decimal places, ties to even. -/
def round2 (q : ℚ) : ℚ := (roundHalfEven (q * 100) : ℚ) / 100

/-- The update of the first NPC in `process_turn`:
`npc["rv"] = min(1.0, npc["rv"] + 0.02)`, `npc["pv"] = min(1.0, npc["pv"] + 0.03)`. -/
def updated_npc (n : NPC) : NPC :=
  { n with rv := min 1 (n.rv + 2/100), pv := min 1 (n.pv + 3/100) }

/-- The flashpoint block of `process_turn`, given the average pressure of
the just-updated first NPC. -/
def next_flashpoint (fp : Flashpoint) (avg_pressure : ℚ) : Flashpoint :=
  if 0 < fp.cooldown_left then
    { fp with cooldown_left := fp.cooldown_left - 1 }
  else if fp.armed = true ∧ fp.threshold ≤ avg_pressure then
    { fp with armed := false, cooldown_left := 5 }
  else fp

/-- The PunSys modulation: `[round(random.uniform(0.2, 0.7), 2) for _ in range(4)]`,
with the four raw uniform draws supplied by `r`. -/
def next_wave (r : Fin 4 → ℚ) : List ℚ :=
  (List.finRange 4).map fun i => round2 (r i)

/-- The whole mutation block of `process_turn` (lines 78-96 of `spine.py`),
on a state whose NPC roster is `n0 :: rest`. -/
def step (s : SpineState) (t : NarrativeTurn) (n0 : NPC) (rest : List NPC)
    (r : Fin 4 → ℚ) : SpineState :=
  { s with
    scene := { s.scene with beat_idx := s.scene.beat_idx + 1 },
    pc := { s.pc with
      last_move := ((t.pc_move_suggestions.head?).map MoveSuggestion.label).getD "" },
    npcs := updated_npc n0 :: rest,
    punsys := { s.punsys with wave := next_wave r },
    flashpoint := next_flashpoint s.flashpoint
      (((updated_npc n0).rv + (updated_npc n0).pv) / 2) }

/-- The `EngineTurn(...)` constructor call at the end of `process_turn`:
everything but the state snapshot is a hardcoded constant, and the `npcs`
field carries only the (updated) first NPC. -/
def respond (s : SpineState) : EngineTurn :=
  { version := "v6"
    seed := 1337
    lang_mode := "EN_narration_JP_dialogue"
    scene := s.scene
    pc := s.pc
    npcs := s.npcs.take 1
    punsys := s.punsys
    flashpoint := s.flashpoint
    constraints :=
      { max_tokens := 250
        no_meta := true
        jp_dialogue_only := true
        furigana_in_breakdown_only := true }
    asks :=
      { render_narration := true
        suggest_pc_moves := 3
        return_observed_markers := ["trait", "quirk", "tone"] } }

/-- `Spine.process_turn`: validation (raising on script leakage or tier
excess), then the state mutation, persistence, and the response.  An
empty NPC roster would raise `IndexError` at `self.state["npcs"][0]`. -/
def process_turn (s : SpineState) (t : NarrativeTurn) (r : Fin 4 → ℚ) :
    Except String (SpineState × EngineTurn) :=
  if t.narration_en.data.any contains_japanese then
    .error "JP detected in narration"
  else if t.dialogue_jp.any (fun d => d.line.data.any contains_english) then
    .error "EN detected in dialogue"
  else if s.punsys.tier < t.punsys_feedback.tier_suggestion then
    .error "Tier exceeded"
  else
    match s.npcs with
    | [] => .error "list index out of range"
    | n0 :: rest => .ok (step s t n0 rest r, respond (step s t n0 rest r))

/-- The state persisted after a call: the mutated state on success, the
unchanged previous document on failure (nothing is saved on an error). -/
def runTurn (s : SpineState) (t : NarrativeTurn) (r : Fin 4 → ℚ) : SpineState :=
  match process_turn s t r with
  | .ok (s', _) => s'
  | .error _ => s

/-- Iterating `runTurn` over a sequence of inbound turns with their random
draws. -/
def runTurns (s : SpineState) : List (NarrativeTurn × (Fin 4 → ℚ)) → SpineState
  | [] => s
  | (t, r) :: ts => runTurns (runTurn s t r) ts

/-- The single NPC of the hardcoded default state. -/
def aiko : NPC :=
  { id := "CNPC-1"
    name := "Aiko"
    traits := ["witty", "protective"]
    quirks := ["tease", "soft_dom"]
    rv := 6/10
    pv := 4/10
    voice_style := "light, clipped" }

/-- `Spine.default_state`: the hardcoded default session document. -/
def default_state : SpineState :=
  { version := "v6"
    scene := { id := "S-001", tone := "slow_burn", location := "rooftop",
               beat_idx := 0, spi := 3 }
    pc := { name := "Bullet", stance := "active", last_move := "" }
    npcs := [aiko]
    punsys := { tier := 2, wave := [2/10, 4/10, 55/100, 35/100], gate := "open" }
    flashpoint := { armed := true, type := "jealousy", threshold := 7/10,
                    cooldown_left := 2 } }

/-- The scenario turn of the spec: English-only narration, one Japanese
dialogue line, tier suggestion 1, no move suggestions. -/
def quiet_turn : NarrativeTurn :=
  { scene_id := "S-001"
    beat_idx := 0
    narration_en := "Quiet morning."
    dialogue_jp := [{ speaker := "Aiko", line := "落ち着いて。" }]
    markers := []
    pc_move_suggestions := []
    punsys_feedback := { pressure_hint := 1/2, tier_suggestion := 1 }
    flashpoint_hint := { prime_level := 1/2, ready_to_trigger := false }
    post_scene_breakdown := { translations := [], vocab := [] } }

/-- A concrete random source: every draw is 0.5. -/
def half_rand : Fin 4 → ℚ := fun _ => 1/2

/-! ### Basic lemmas about the embedding -/

/-- When all three validation rules pass and the roster is nonempty,
`process_turn` succeeds with the `step`-mutated state and its response. -/
theorem process_turn_eq_ok {s : SpineState} {t : NarrativeTurn} {n0 : NPC}
    {rest : List NPC} (r : Fin 4 → ℚ) (hn : s.npcs = n0 :: rest)
    (h1 : t.narration_en.data.any contains_japanese = false)
    (h2 : t.dialogue_jp.any (fun d => d.line.data.any contains_english) = false)
    (h3 : t.punsys_feedback.tier_suggestion ≤ s.punsys.tier) :
    process_turn s t r = .ok (step s t n0 rest r, respond (step s t n0 rest r)) := by
  unfold process_turn
  rw [h1, h2, hn]
  simp [not_lt.mpr h3]

/-- Inversion: a successful `process_turn` comes from a nonempty roster and
produces exactly the `step`-mutated state and its response. -/
theorem process_turn_ok_elim {s : SpineState} {t : NarrativeTurn}
    {r : Fin 4 → ℚ} {s' : SpineState} {e : EngineTurn}
    (h : process_turn s t r = .ok (s', e)) :
    ∃ n0 rest, s.npcs = n0 :: rest ∧ s' = step s t n0 rest r ∧
      e = respond (step s t n0 rest r) := by
  unfold process_turn at h
  split_ifs at h
  rcases hs : s.npcs with _ | ⟨n0, rest⟩
  · rw [hs] at h
    exact Except.noConfusion h
  · rw [hs] at h
    simp only [Except.ok.injEq, Prod.mk.injEq] at h
    exact ⟨n0, rest, rfl, h.1.symm, h.2.symm⟩

/-- On a failed `process_turn` nothing is persisted. -/
theorem runTurn_of_error {s : SpineState} {t : NarrativeTurn} {r : Fin 4 → ℚ}
    {msg : String} (h : process_turn s t r = .error msg) :
    runTurn s t r = s := by
  unfold runTurn
  rw [h]

/-! ### Lemmas about ties-to-even rounding -/

/-- Rounding an integer returns it unchanged. -/
theorem roundHalfEven_intCast (n : Int) : roundHalfEven (n : ℚ) = n := by
  unfold roundHalfEven
  rw [Int.floor_intCast]
  norm_num

/-- A lower integer bound passes through `roundHalfEven`. -/
theorem le_roundHalfEven {n : Int} {q : ℚ} (h : (n : ℚ) ≤ q) :
    n ≤ roundHalfEven q := by
  have hf : n ≤ ⌊q⌋ := Int.le_floor.mpr h
  unfold roundHalfEven
  split_ifs <;> omega

/-- An upper integer bound passes through `roundHalfEven`. -/
theorem roundHalfEven_le {n : Int} {q : ℚ} (h : q ≤ (n : ℚ)) :
    roundHalfEven q ≤ n := by
  have hf : ⌊q⌋ ≤ n := by
    have h2 := Int.floor_le_floor (α := ℚ) h
    rwa [Int.floor_intCast] at h2
  have hfl : (⌊q⌋ : ℚ) ≤ q := Int.floor_le q
  unfold roundHalfEven
  split_ifs with h1 h2 h3
  · exact hf
  · have hq : ((⌊q⌋ : Int) : ℚ) < (n : ℚ) := by linarith
    have : ⌊q⌋ < n := by exact_mod_cast hq
    omega
  · exact hf
  · have h1' : (1 : ℚ)/2 ≤ q - ⌊q⌋ := not_lt.mp h1
    have hq : ((⌊q⌋ : Int) : ℚ) < (n : ℚ) := by linarith
    have : ⌊q⌋ < n := by exact_mod_cast hq
    omega

/-- `round2` is idempotent. -/
theorem round2_round2 (q : ℚ) : round2 (round2 q) = round2 q := by
  unfold round2
  rw [div_mul_cancel₀ _ (by norm_num : (100 : ℚ) ≠ 0), roundHalfEven_intCast]

/-- `round2` preserves the lower bound 0.2. -/
theorem round2_ge {q : ℚ} (h : 1/5 ≤ q) : 1/5 ≤ round2 q := by
  unfold round2
  have h100 : ((20 : Int) : ℚ) ≤ q * 100 := by push_cast; linarith
  have hk := le_roundHalfEven h100
  have hk' : ((20 : Int) : ℚ) ≤ ((roundHalfEven (q * 100) : Int) : ℚ) := by
    exact_mod_cast hk
  push_cast at hk' ⊢
  linarith

/-- `round2` preserves the upper bound 0.7. -/
theorem round2_le {q : ℚ} (h : q ≤ 7/10) : round2 q ≤ 7/10 := by
  unfold round2
  have h100 : q * 100 ≤ ((70 : Int) : ℚ) := by push_cast; linarith
  have hk := roundHalfEven_le h100
  have hk' : ((roundHalfEven (q * 100) : Int) : ℚ) ≤ ((70 : Int) : ℚ) := by
    exact_mod_cast hk
  push_cast at hk' ⊢
  linarith

/-- A turn whose single dialogue line contains Latin letters. -/
def latin_turn : NarrativeTurn :=
  { quiet_turn with dialogue_jp := [{ speaker := "Aiko", line := "Calm down." }] }

/-- A turn whose narration contains Japanese-script characters. -/
def jp_narration_turn : NarrativeTurn :=
  { quiet_turn with narration_en := "静かな朝。" }

/-- A turn carrying one move suggestion. -/
def move_turn : NarrativeTurn :=
  { quiet_turn with pc_move_suggestions := [{ id := "M1", label := "wave" }] }

/-- The default state with the flashpoint disarmed. -/
def disarmed_state : SpineState :=
  { default_state with
    flashpoint := { default_state.flashpoint with armed := false } }

/-- A second concrete random source: every draw is 0.3. -/
def other_rand : Fin 4 → ℚ := fun _ => 3/10

/-- Case analysis of the flashpoint block: cooldown countdown, trigger,
or no change; type and threshold never change. -/
theorem next_flashpoint_spec (fp : Flashpoint) (avg : ℚ) :
    (0 < fp.cooldown_left →
       (next_flashpoint fp avg).cooldown_left = fp.cooldown_left - 1 ∧
       (next_flashpoint fp avg).armed = fp.armed) ∧
    (¬ 0 < fp.cooldown_left → fp.armed = true → fp.threshold ≤ avg →
       (next_flashpoint fp avg).armed = false ∧
       (next_flashpoint fp avg).cooldown_left = 5) ∧
    (next_flashpoint fp avg).type = fp.type ∧
    (next_flashpoint fp avg).threshold = fp.threshold := by
  unfold next_flashpoint
  split_ifs with hc ha
  · exact ⟨fun _ => ⟨rfl, rfl⟩, fun hc' => absurd hc hc', rfl, rfl⟩
  · exact ⟨fun hc' => absurd hc' hc, fun _ _ _ => ⟨rfl, rfl⟩, rfl, rfl⟩
  · exact ⟨fun hc' => absurd hc' hc, fun _ harm hth => absurd ⟨harm, hth⟩ ha,
      rfl, rfl⟩

/-! ### Claims -/

/-- C1: a turn whose narration has no Japanese-script character, whose
dialogue lines have no Latin letter, and whose tier suggestion is at most
the stored punsys tier is processed successfully, and the resulting
state's `scene.beat_idx` is the pre-call value plus exactly 1. -/
theorem C1_valid_turn_succeeds_beat_increments (s : SpineState)
    (t : NarrativeTurn) (r : Fin 4 → ℚ) (hn : s.npcs ≠ [])
    (h1 : t.narration_en.data.any contains_japanese = false)
    (h2 : (t.dialogue_jp.any fun d => d.line.data.any contains_english) = false)
    (h3 : t.punsys_feedback.tier_suggestion ≤ s.punsys.tier) :
    ∃ s' e, process_turn s t r = .ok (s', e) ∧
      s'.scene.beat_idx = s.scene.beat_idx + 1 := by
  rcases hs : s.npcs with _ | ⟨n0, rest⟩
  · exact absurd hs hn
  · exact ⟨_, _, process_turn_eq_ok r hs h1 h2 h3, by simp [step]⟩

/-- Witness for C1 at the default state and the scenario turn. -/
theorem C1_witness :
    ∃ s' e, process_turn default_state quiet_turn half_rand = .ok (s', e) ∧
      s'.scene.beat_idx = default_state.scene.beat_idx + 1 :=
  C1_valid_turn_succeeds_beat_increments default_state quiet_turn half_rand
    (by simp [default_state]) (by decide) (by decide) (by decide)

/-- C2: a turn violating a validation rule (Japanese script in narration,
a Latin letter in a dialogue line, or a tier suggestion above the stored
tier) fails with an error, and the persisted document is unchanged. -/
theorem C2_invalid_turn_rejected_state_unchanged (s : SpineState)
    (t : NarrativeTurn) (r : Fin 4 → ℚ)
    (h : t.narration_en.data.any contains_japanese = true ∨
         (t.dialogue_jp.any fun d => d.line.data.any contains_english) = true ∨
         s.punsys.tier < t.punsys_feedback.tier_suggestion) :
    (∃ msg, process_turn s t r = .error msg) ∧ runTurn s t r = s := by
  have herr : ∃ msg, process_turn s t r = .error msg := by
    unfold process_turn
    split_ifs with h1 h2 h3
    · exact ⟨_, rfl⟩
    · exact ⟨_, rfl⟩
    · exact ⟨_, rfl⟩
    · rcases h with h | h | h
      · exact absurd h h1
      · exact absurd h h2
      · exact absurd h h3
  obtain ⟨msg, hmsg⟩ := herr
  exact ⟨⟨msg, hmsg⟩, runTurn_of_error hmsg⟩

/-- Witness for C2 at the default state and a Latin-dialogue turn. -/
theorem C2_witness :
    (∃ msg, process_turn default_state latin_turn half_rand = .error msg) ∧
    runTurn default_state latin_turn half_rand = default_state :=
  C2_invalid_turn_rejected_state_unchanged default_state latin_turn half_rand
    (Or.inr (Or.inl (by decide)))

/-- C5: from the hardcoded default state, the scenario turn (English-only
narration, one Japanese dialogue line, tier suggestion 1) succeeds, and
afterwards `beat_idx = 1`, `cooldown_left = 1`, and `armed` is still true. -/
theorem C5_default_scenario :
    ∃ s' e, process_turn default_state quiet_turn half_rand = .ok (s', e) ∧
      s'.scene.beat_idx = 1 ∧ s'.flashpoint.cooldown_left = 1 ∧
      s'.flashpoint.armed = true := by
  refine ⟨_, _, process_turn_eq_ok half_rand rfl (by decide) (by decide)
    (by decide), ?_, ?_, ?_⟩
  · norm_num [step, default_state]
  · norm_num [step, next_flashpoint, default_state]
  · norm_num [step, next_flashpoint, default_state]

/-- C3: on a successful turn, if `cooldown_left > 0` it decreases by 1 and
`armed` is untouched; otherwise an armed flashpoint whose threshold is
reached by the just-updated first NPC's average pressure is disarmed and
the cooldown resets to 5; type and threshold never change. -/
theorem C3_flashpoint_update (s : SpineState) (t : NarrativeTurn)
    (r : Fin 4 → ℚ) (s' : SpineState) (e : EngineTurn) (n0 : NPC)
    (rest : List NPC) (hn : s.npcs = n0 :: rest)
    (h : process_turn s t r = .ok (s', e)) :
    (0 < s.flashpoint.cooldown_left →
       s'.flashpoint.cooldown_left = s.flashpoint.cooldown_left - 1 ∧
       s'.flashpoint.armed = s.flashpoint.armed) ∧
    (¬ 0 < s.flashpoint.cooldown_left → s.flashpoint.armed = true →
     s.flashpoint.threshold ≤ ((updated_npc n0).rv + (updated_npc n0).pv) / 2 →
       s'.flashpoint.armed = false ∧ s'.flashpoint.cooldown_left = 5) ∧
    s'.flashpoint.type = s.flashpoint.type ∧
    s'.flashpoint.threshold = s.flashpoint.threshold := by
  obtain ⟨n0', rest', hn', hs', -⟩ := process_turn_ok_elim h
  rw [hn] at hn'
  injection hn' with e1 e2
  subst e1
  subst e2
  subst hs'
  exact next_flashpoint_spec s.flashpoint _

/-- Witness for C3 at the default state (cooldown 2, so the countdown
branch applies). -/
theorem C3_witness :
    (0 < default_state.flashpoint.cooldown_left →
       (step default_state quiet_turn aiko [] half_rand).flashpoint.cooldown_left =
         default_state.flashpoint.cooldown_left - 1 ∧
       (step default_state quiet_turn aiko [] half_rand).flashpoint.armed =
         default_state.flashpoint.armed) ∧
    (¬ 0 < default_state.flashpoint.cooldown_left →
     default_state.flashpoint.armed = true →
     default_state.flashpoint.threshold ≤
       ((updated_npc aiko).rv + (updated_npc aiko).pv) / 2 →
       (step default_state quiet_turn aiko [] half_rand).flashpoint.armed = false ∧
       (step default_state quiet_turn aiko [] half_rand).flashpoint.cooldown_left = 5) ∧
    (step default_state quiet_turn aiko [] half_rand).flashpoint.type =
      default_state.flashpoint.type ∧
    (step default_state quiet_turn aiko [] half_rand).flashpoint.threshold =
      default_state.flashpoint.threshold :=
  C3_flashpoint_update default_state quiet_turn half_rand _ _ aiko [] rfl
    (process_turn_eq_ok half_rand rfl (by decide) (by decide) (by decide))

/-- C6: after any successful turn, whatever the four uniform draws in
[0.2, 0.7] were, the tension wave has exactly 4 entries, each in
[0.2, 0.7] and a fixed point of rounding to 2 decimals. -/
theorem C6_wave_bounds_rounded (s : SpineState) (t : NarrativeTurn)
    (r : Fin 4 → ℚ) (s' : SpineState) (e : EngineTurn)
    (h : process_turn s t r = .ok (s', e))
    (hr : ∀ i, 1/5 ≤ r i ∧ r i ≤ 7/10) :
    s'.punsys.wave.length = 4 ∧
    ∀ q ∈ s'.punsys.wave, 1/5 ≤ q ∧ q ≤ 7/10 ∧ round2 q = q := by
  obtain ⟨n0, rest, hn, hs', -⟩ := process_turn_ok_elim h
  subst hs'
  refine ⟨by simp [step, next_wave], ?_⟩
  intro q hq
  simp only [step, next_wave, List.mem_map, List.mem_finRange, true_and] at hq
  obtain ⟨i, hq⟩ := hq
  subst hq
  exact ⟨round2_ge (hr i).1, round2_le (hr i).2, round2_round2 _⟩

/-- Witness for C6 at the default state, scenario turn, and all-0.5 draws. -/
theorem C6_witness :
    (step default_state quiet_turn aiko [] half_rand).punsys.wave.length = 4 ∧
    ∀ q ∈ (step default_state quiet_turn aiko [] half_rand).punsys.wave,
      1/5 ≤ q ∧ q ≤ 7/10 ∧ round2 q = q :=
  C6_wave_bounds_rounded default_state quiet_turn half_rand _ _
    (process_turn_eq_ok half_rand rfl (by decide) (by decide) (by decide))
    (fun _ => by norm_num [half_rand])

/-- C8: the response metadata (version, seed, lang_mode, constraints,
asks) is the same for any two successful calls, whatever the states and
inputs. -/
theorem C8_metadata_constant (s1 : SpineState) (t1 : NarrativeTurn)
    (r1 : Fin 4 → ℚ) (s1' : SpineState) (e1 : EngineTurn) (s2 : SpineState)
    (t2 : NarrativeTurn) (r2 : Fin 4 → ℚ) (s2' : SpineState) (e2 : EngineTurn)
    (h1 : process_turn s1 t1 r1 = .ok (s1', e1))
    (h2 : process_turn s2 t2 r2 = .ok (s2', e2)) :
    e1.version = e2.version ∧ e1.seed = e2.seed ∧
    e1.lang_mode = e2.lang_mode ∧ e1.constraints = e2.constraints ∧
    e1.asks = e2.asks := by
  obtain ⟨n1, rest1, hn1, hs1, he1⟩ := process_turn_ok_elim h1
  obtain ⟨n2, rest2, hn2, hs2, he2⟩ := process_turn_ok_elim h2
  subst he1
  subst he2
  exact ⟨rfl, rfl, rfl, rfl, rfl⟩

/-- Witness for C8: two different successful calls share their metadata. -/
theorem C8_witness :
    (respond (step default_state quiet_turn aiko [] half_rand)).version =
      (respond (step disarmed_state move_turn aiko [] other_rand)).version ∧
    (respond (step default_state quiet_turn aiko [] half_rand)).seed =
      (respond (step disarmed_state move_turn aiko [] other_rand)).seed ∧
    (respond (step default_state quiet_turn aiko [] half_rand)).lang_mode =
      (respond (step disarmed_state move_turn aiko [] other_rand)).lang_mode ∧
    (respond (step default_state quiet_turn aiko [] half_rand)).constraints =
      (respond (step disarmed_state move_turn aiko [] other_rand)).constraints ∧
    (respond (step default_state quiet_turn aiko [] half_rand)).asks =
      (respond (step disarmed_state move_turn aiko [] other_rand)).asks :=
  C8_metadata_constant default_state quiet_turn half_rand _ _
    disarmed_state move_turn other_rand _ _
    (process_turn_eq_ok half_rand rfl (by decide) (by decide) (by decide))
    (process_turn_eq_ok other_rand rfl (by decide) (by decide) (by decide))

/-- C9: a successful turn only changes `scene.beat_idx`, `pc.last_move`,
the first NPC's `rv`/`pv`, `flashpoint.armed`/`cooldown_left`, and the
punsys wave; all other fields are unchanged. -/
theorem C9_frame_condition (s : SpineState) (t : NarrativeTurn)
    (r : Fin 4 → ℚ) (s' : SpineState) (e : EngineTurn) (n0 : NPC)
    (rest : List NPC) (hn : s.npcs = n0 :: rest)
    (h : process_turn s t r = .ok (s', e)) :
    s'.version = s.version ∧
    s'.scene.id = s.scene.id ∧ s'.scene.tone = s.scene.tone ∧
    s'.scene.location = s.scene.location ∧ s'.scene.spi = s.scene.spi ∧
    s'.pc.name = s.pc.name ∧ s'.pc.stance = s.pc.stance ∧
    (∃ n0', s'.npcs = n0' :: rest ∧ n0'.id = n0.id ∧ n0'.name = n0.name ∧
      n0'.traits = n0.traits ∧ n0'.quirks = n0.quirks ∧
      n0'.voice_style = n0.voice_style) ∧
    s'.punsys.tier = s.punsys.tier ∧ s'.punsys.gate = s.punsys.gate ∧
    s'.flashpoint.type = s.flashpoint.type ∧
    s'.flashpoint.threshold = s.flashpoint.threshold := by
  obtain ⟨n0', rest', hn', hs', -⟩ := process_turn_ok_elim h
  rw [hn] at hn'
  injection hn' with e1 e2
  subst e1
  subst e2
  subst hs'
  exact ⟨rfl, rfl, rfl, rfl, rfl, rfl, rfl,
    ⟨updated_npc n0, rfl, rfl, rfl, rfl, rfl, rfl⟩, rfl, rfl,
    (next_flashpoint_spec s.flashpoint _).2.2.1,
    (next_flashpoint_spec s.flashpoint _).2.2.2⟩

/-- Witness for C9 at the default state and the scenario turn. -/
theorem C9_witness :
    (step default_state quiet_turn aiko [] half_rand).version =
      default_state.version ∧
    (step default_state quiet_turn aiko [] half_rand).scene.id =
      default_state.scene.id :=
  ⟨(C9_frame_condition default_state quiet_turn half_rand _ _ aiko [] rfl
      (process_turn_eq_ok half_rand rfl (by decide) (by decide) (by decide))).1,
   (C9_frame_condition default_state quiet_turn half_rand _ _ aiko [] rfl
      (process_turn_eq_ok half_rand rfl (by decide) (by decide) (by decide))).2.1⟩

/-- C7 counterexample: a turn with Japanese narration is rejected, but the
reason string is "JP detected in narration", not the spec's
"script leakage in narration". -/
theorem C7_counterexample :
    process_turn default_state jp_narration_turn half_rand =
      .error "JP detected in narration" ∧
    "JP detected in narration" ≠ "script leakage in narration" := by
  constructor
  · rfl
  · decide

/-- C7 amended: the failure reasons are "JP detected in narration" for
Japanese script in narration, "EN detected in dialogue" for a Latin
letter in a dialogue line, and "Tier exceeded" for a tier suggestion
above the stored tier. -/
theorem C7_amended_failure_reasons (s : SpineState) (t : NarrativeTurn)
    (r : Fin 4 → ℚ) :
    (t.narration_en.data.any contains_japanese = true →
       process_turn s t r = .error "JP detected in narration") ∧
    (t.narration_en.data.any contains_japanese = false →
     (t.dialogue_jp.any fun d => d.line.data.any contains_english) = true →
       process_turn s t r = .error "EN detected in dialogue") ∧
    (t.narration_en.data.any contains_japanese = false →
     (t.dialogue_jp.any fun d => d.line.data.any contains_english) = false →
     s.punsys.tier < t.punsys_feedback.tier_suggestion →
       process_turn s t r = .error "Tier exceeded") := by
  refine ⟨fun h1 => ?_, fun h1 h2 => ?_, fun h1 h2 h3 => ?_⟩
  · simp [process_turn, h1]
  · simp [process_turn, h1, h2]
  · simp [process_turn, h1, h2, h3]

/-- Witness for C7's amended claim on a Japanese-narration turn. -/
theorem C7_witness :
    process_turn default_state jp_narration_turn half_rand =
      .error "JP detected in narration" :=
  (C7_amended_failure_reasons default_state jp_narration_turn half_rand).1
    (by decide)

/-! ### Invariant machinery for C4 and C10 -/

/-- The first NPC exists and its `rv`/`pv` lie between the given lower
bounds and 1. -/
def FirstNpcBounds (a b : ℚ) (s : SpineState) : Prop :=
  ∃ n0 rest, s.npcs = n0 :: rest ∧
    a ≤ n0.rv ∧ n0.rv ≤ 1 ∧ b ≤ n0.pv ∧ n0.pv ≤ 1

theorem updated_npc_rv_le_one (n : NPC) : (updated_npc n).rv ≤ 1 :=
  min_le_left _ _

theorem updated_npc_pv_le_one (n : NPC) : (updated_npc n).pv ≤ 1 :=
  min_le_left _ _

theorem rv_le_updated_npc_rv (n : NPC) (h : n.rv ≤ 1) :
    n.rv ≤ (updated_npc n).rv :=
  le_min h (by linarith)

theorem pv_le_updated_npc_pv (n : NPC) (h : n.pv ≤ 1) :
    n.pv ≤ (updated_npc n).pv :=
  le_min h (by linarith)

/-- One persisted turn (successful or not) preserves `FirstNpcBounds`. -/
theorem runTurn_firstNpcBounds {a b : ℚ} {s : SpineState}
    (t : NarrativeTurn) (r : Fin 4 → ℚ) (h : FirstNpcBounds a b s) :
    FirstNpcBounds a b (runTurn s t r) := by
  obtain ⟨n0, rest, hn, h1, h2, h3, h4⟩ := h
  unfold runTurn
  rcases hp : process_turn s t r with msg | ⟨s', e⟩
  · exact ⟨n0, rest, hn, h1, h2, h3, h4⟩
  · obtain ⟨n0', rest', hn', hs', -⟩ := process_turn_ok_elim hp
    rw [hn] at hn'
    injection hn' with e1 e2
    subst e1
    subst e2
    subst hs'
    exact ⟨updated_npc n0, rest, rfl,
      le_trans h1 (rv_le_updated_npc_rv n0 h2), updated_npc_rv_le_one n0,
      le_trans h3 (pv_le_updated_npc_pv n0 h4), updated_npc_pv_le_one n0⟩

/-- Any sequence of persisted turns preserves `FirstNpcBounds`. -/
theorem runTurns_firstNpcBounds {a b : ℚ} {s : SpineState}
    (ts : List (NarrativeTurn × (Fin 4 → ℚ))) (h : FirstNpcBounds a b s) :
    FirstNpcBounds a b (runTurns s ts) := by
  induction ts generalizing s with
  | nil => exact h
  | cons p ts ih =>
    rcases p with ⟨t, r⟩
    exact ih (runTurn_firstNpcBounds t r h)

/-- C4: if the first NPC's `rv` and `pv` start in [0, 1], every successful
turn replaces them by `min 1 (rv + 0.02)` and `min 1 (pv + 0.03)` (hence
non-decreasing), and after any number of turns they are still in [0, 1]
and at least their initial values. -/
theorem C4_rv_pv_clamped_monotone (s : SpineState) (n0 : NPC)
    (rest : List NPC) (hn : s.npcs = n0 :: rest) (h1 : 0 ≤ n0.rv)
    (h2 : n0.rv ≤ 1) (h3 : 0 ≤ n0.pv) (h4 : n0.pv ≤ 1) :
    (∀ t r s' e, process_turn s t r = .ok (s', e) →
       s'.npcs = updated_npc n0 :: rest ∧
       (updated_npc n0).rv = min 1 (n0.rv + 2/100) ∧
       (updated_npc n0).pv = min 1 (n0.pv + 3/100) ∧
       n0.rv ≤ (updated_npc n0).rv ∧ n0.pv ≤ (updated_npc n0).pv) ∧
    (∀ ts, ∃ n0' rest', (runTurns s ts).npcs = n0' :: rest' ∧
       0 ≤ n0'.rv ∧ n0'.rv ≤ 1 ∧ 0 ≤ n0'.pv ∧ n0'.pv ≤ 1 ∧
       n0.rv ≤ n0'.rv ∧ n0.pv ≤ n0'.pv) := by
  constructor
  · intro t r s' e h
    obtain ⟨n0', rest', hn', hs', -⟩ := process_turn_ok_elim h
    rw [hn] at hn'
    injection hn' with e1 e2
    subst e1
    subst e2
    subst hs'
    exact ⟨rfl, rfl, rfl, rv_le_updated_npc_rv n0 h2,
      pv_le_updated_npc_pv n0 h4⟩
  · intro ts
    obtain ⟨n0', rest', hn', hb1, hb2, hb3, hb4⟩ :=
      runTurns_firstNpcBounds (a := n0.rv) (b := n0.pv) ts
        ⟨n0, rest, hn, le_refl _, h2, le_refl _, h4⟩
    exact ⟨n0', rest', hn', le_trans h1 hb1, hb2, le_trans h3 hb3, hb4,
      hb1, hb3⟩

/-- Witness for C4: one turn from the default state keeps the first NPC's
values in range. -/
theorem C4_witness :
    ∃ n0' rest',
      (runTurns default_state [(quiet_turn, half_rand)]).npcs = n0' :: rest' ∧
      0 ≤ n0'.rv ∧ n0'.rv ≤ 1 ∧ 0 ≤ n0'.pv ∧ n0'.pv ≤ 1 ∧
      aiko.rv ≤ n0'.rv ∧ aiko.pv ≤ n0'.pv :=
  (C4_rv_pv_clamped_monotone default_state aiko [] rfl
      (by norm_num [aiko]) (by norm_num [aiko]) (by norm_num [aiko])
      (by norm_num [aiko])).2 [(quiet_turn, half_rand)]

/-- One persisted turn never re-arms a disarmed flashpoint. -/
theorem runTurn_armed_false {s : SpineState} (t : NarrativeTurn)
    (r : Fin 4 → ℚ) (h : s.flashpoint.armed = false) :
    (runTurn s t r).flashpoint.armed = false := by
  unfold runTurn
  rcases hp : process_turn s t r with msg | ⟨s', e⟩
  · exact h
  · obtain ⟨n0, rest, hn, hs', -⟩ := process_turn_ok_elim hp
    subst hs'
    show (next_flashpoint s.flashpoint _).armed = false
    unfold next_flashpoint
    split_ifs with hc ha
    · exact h
    · rfl
    · exact h

/-- C10: a disarmed flashpoint stays disarmed forever: `process_turn`
never sets `armed` back to true. -/
theorem C10_armed_never_rearmed (s : SpineState)
    (h : s.flashpoint.armed = false) :
    ∀ ts, (runTurns s ts).flashpoint.armed = false := by
  intro ts
  induction ts generalizing s with
  | nil => exact h
  | cons p ts ih =>
    rcases p with ⟨t, r⟩
    exact ih _ (runTurn_armed_false t r h)

/-- Witness for C10 on the disarmed default state over one turn. -/
theorem C10_witness :
    (runTurns disarmed_state [(quiet_turn, half_rand)]).flashpoint.armed =
      false :=
  C10_armed_never_rearmed disarmed_state rfl [(quiet_turn, half_rand)]

end Spine
